import Mathlib

/-!
# Verification of the agent-ios daemon core

A shallow embedding of the core of the `agent-ios` automation daemon
(snapshot parser, reference store and resolver, device resolution,
backend HTTP client, session-start handler, socket command channel),
together with theorems settling the specification claims about it.

Sources embedded:
* `snapshot.ts` — XML-tree-to-snapshot conversion (`parseWDASource` /
  `processNode`), the reference store, and `resolveRef`;
* `simctl.ts` — `findSimulator` / `getBootedSimulator`;
* `wda-client.ts` — `WDAClient.request` and the calls built on it;
* `daemon.ts` — `handleStartSession` and `handleSnapshot`'s store update;
* `socket-server.ts` — per-line command processing.
-/

namespace AgentIOS

/-! ## JavaScript-style helpers

The TypeScript source relies on JS string truthiness (the empty string is
falsy) and on `String.prototype.startsWith` / `includes`.  We mirror those
exactly, on `Option String` for possibly-absent attributes. -/

/-- JS truthiness of a possibly-absent string: present and non-empty. -/
def jsTruthy : Option String → Bool
  | some s => s ≠ ""
  | none => false

/-- Single-quote character, used by the source when building WDA predicate
strings. -/
def sq : String := String.singleton (Char.ofNat 39)

/-- `needle` occurs as a contiguous substring of `hay`
(JS `String.prototype.includes`). -/
def containsSub (hay needle : String) : Bool :=
  hay.toList.tails.any (fun t => needle.toList.isPrefixOf t)

/-- `s` starts with prefix `p` (JS `String.prototype.startsWith`). -/
def startsWithM (s p : String) : Bool :=
  p.toList.isPrefixOf s.toList

/-- Character-wise lower-casing (JS `String.prototype.toLowerCase`; the
two agree on the ASCII device names involved). -/
def toLowerM (s : String) : String :=
  String.mk (s.toList.map Char.toLower)

/-! ## Snapshot parser (`snapshot.ts`)

`parseWDASource` first runs the hand-written XML string parser and then
converts the resulting `XMLNode` tree into a `Snapshot`.  The claims all
concern the second phase (lines 606–665 of `snapshot.ts`), so the embedding
takes the parsed `XMLNode` tree as input; every successful `parseWDASource`
call factors through it. -/

/-- Parsed XML node (`XMLNode` in `snapshot.ts`): tag, attribute key/value
pairs, children.  Attribute lists may contain repeated keys; JS object
assignment keeps the last one, which `attrGet` mirrors. -/
inductive XMLNode where
  | mk (tag : String) (attributes : List (String × String)) (children : List XMLNode)
deriving Repr

/-- The tag of a node. -/
def XMLNode.tag : XMLNode → String
  | .mk t _ _ => t

/-- The attributes of a node. -/
def XMLNode.attributes : XMLNode → List (String × String)
  | .mk _ a _ => a

/-- The children of a node. -/
def XMLNode.children : XMLNode → List XMLNode
  | .mk _ _ c => c

/-- Attribute lookup: last assignment wins, as with a JS object record. -/
def attrGet (attrs : List (String × String)) (k : String) : Option String :=
  (attrs.reverse.find? (fun p => p.1 = k)).map Prod.snd

/-- `a || b || null` on attribute strings: first truthy value, else `none`. -/
def jsOr (a b : Option String) : Option String :=
  if jsTruthy a then a else if jsTruthy b then b else none

/-- `a || null` on one attribute string. -/
def jsOrNull (a : Option String) : Option String :=
  if jsTruthy a then a else none

/-- Element record of the snapshot (`Element` in `snapshot.ts`).  The
source stores `frame` as four `parseFloat`ed numbers; no claim depends on
the numeric values, so the embedding keeps the raw attribute strings
(defaulted to `"0"` exactly where the source defaults the number to 0). -/
structure Element where
  ref : String
  type : String
  label : Option String
  identifier : Option String
  value : Option String
  frameX : String
  frameY : String
  frameW : String
  frameH : String
  enabled : Bool
  visible : Bool
  children : List String
deriving Repr, DecidableEq

/-- Reference-table entry (`RefMapEntry` in `snapshot.ts`). -/
structure RefMapEntry where
  type : String
  label : Option String := none
  identifier : Option String := none
deriving Repr, DecidableEq

/-- Snapshot (`Snapshot` in `snapshot.ts`).  `timestamp` (wall-clock
`toISOString`) is omitted: real time is outside the embedding and no claim
mentions it. -/
structure Snapshot where
  elements : List Element
  tree : String
  refMap : List (String × RefMapEntry)
deriving Repr, DecidableEq

/-- The reference token for counter value `i`: `` `@e${i}` ``. -/
def refName (i : Nat) : String := "@e" ++ toString i

/-- Build one `Element` from a node, its assigned ref and child refs
(the object literal at `snapshot.ts` lines 634–644). -/
def mkElement (node : XMLNode) (ref : String) (childRefs : List String) : Element :=
  let attrs := node.attributes
  { ref := ref
    type := node.tag
    label := jsOr (attrGet attrs "label") (attrGet attrs "name")
    identifier := jsOr (attrGet attrs "identifier") (attrGet attrs "name")
    value := jsOrNull (attrGet attrs "value")
    frameX := (attrGet attrs "x").getD "0"
    frameY := (attrGet attrs "y").getD "0"
    frameW := (attrGet attrs "width").getD "0"
    frameH := (attrGet attrs "height").getD "0"
    enabled := !(attrGet attrs "enabled" == some "false")
    visible := !(attrGet attrs "visible" == some "false")
    children := childRefs }

/-- Build the ref-map entry for an element (`snapshot.ts` lines 649–652):
type always, label/identifier only when truthy on the element. -/
def mkRefEntry (node : XMLNode) (el : Element) : RefMapEntry :=
  { type := node.tag
    label := if jsTruthy el.label then el.label else none
    identifier := if jsTruthy el.identifier then el.identifier else none }

mutual

/-- `processNode` (`snapshot.ts` lines 616–655), with the mutable
`refCounter` / `elements` / `refMap` made explicit: takes the current
counter, returns the node's ref, the counter afterwards, and the element
and ref-map entries appended during the call (in push order). -/
def processNode (node : XMLNode) (ctr : Nat) :
    String × Nat × List Element × List (String × RefMapEntry) :=
  match node with
  | .mk tag attrs children =>
    let ref := refName ctr
    let (childRefs, ctr2, els, rms) := processChildren children (ctr + 1)
    let el := mkElement (.mk tag attrs children) ref childRefs
    (ref, ctr2, els ++ [el], rms ++ [(ref, mkRefEntry (.mk tag attrs children) el)])

/-- The child loop of `processNode` (`snapshot.ts` lines 628–632). -/
def processChildren (nodes : List XMLNode) (ctr : Nat) :
    List String × Nat × List Element × List (String × RefMapEntry) :=
  match nodes with
  | [] => ([], ctr, [], [])
  | c :: cs =>
    let (r, ctr1, els1, rm1) := processNode c ctr
    let (rs, ctr2, els2, rm2) := processChildren cs ctr1
    (r :: rs, ctr2, els1 ++ els2, rm1 ++ rm2)

end

/-- `parseWDASource` (`snapshot.ts` lines 606–665) after a successful XML
parse: run `processNode` on the root with the counter at 0 and package the
snapshot. -/
def parseWDASourceNode (root : XMLNode) : Snapshot :=
  let (treeRef, _, elements, refMap) := processNode root 0
  { elements := elements, tree := treeRef, refMap := refMap }

mutual

/-- The nodes of a tree in document (preorder, depth-first) order. -/
def preorderNodes (node : XMLNode) : List XMLNode :=
  match node with
  | .mk tag attrs children => .mk tag attrs children :: preorderForest children

/-- Document-order nodes of a forest. -/
def preorderForest (nodes : List XMLNode) : List XMLNode :=
  match nodes with
  | [] => []
  | c :: cs => preorderNodes c ++ preorderForest cs

end

/-- Number of nodes in a tree. -/
def countNodes (node : XMLNode) : Nat := (preorderNodes node).length

/-! ## Reference store and resolver (`snapshot.ts` lines 667–774)

The store is a JS `Map<string, RefMapEntry>`; we embed it as an association
list with `Map`-style insert-or-overwrite `set`. -/

/-- Reference store contents (`createRefStore`'s backing `Map`). -/
abbrev RefStore := List (String × RefMapEntry)

/-- `Map.get`: the binding for `k`, if any. -/
def storeGet (store : RefStore) (k : String) : Option RefMapEntry :=
  (List.find? (fun p => p.1 = k) store).map Prod.snd

/-- `Map.set`: overwrite an existing binding for `k` or append a new one. -/
def storeSet (store : RefStore) (k : String) (v : RefMapEntry) : RefStore :=
  match store with
  | [] => [(k, v)]
  | (k0, v0) :: rest =>
    if k0 = k then (k, v) :: rest else (k0, v0) :: storeSet rest k v

/-- `Map.clear`. -/
def storeClear (_store : RefStore) : RefStore := []

/-- The ref-store update performed by `handleSnapshot`
(`daemon.ts` lines 694–698): clear, then `set` every entry of the new
snapshot's `refMap`. -/
def refStoreAfterSnapshot (store : RefStore) (snap : Snapshot) : RefStore :=
  snap.refMap.foldl (fun st p => storeSet st p.1 p.2) (storeClear store)

/-- `RefResolutionError` (`snapshot.ts` lines 699–708): message, offending
ref, optional remediation suggestion. -/
structure RefResolutionError where
  message : String
  ref : String
  suggestion : Option String := none
deriving Repr, DecidableEq

/-- The invalid-ref-format error (`snapshot.ts` lines 723–727). -/
def invalidFormatError (ref : String) : RefResolutionError :=
  { message := "Invalid ref format: " ++ ref ++ ". Refs should start with @e (e.g., @e5)"
    ref := ref
    suggestion := none }

/-- The unknown-ref error (`snapshot.ts` lines 732–737). -/
def unknownRefError (ref : String) : RefResolutionError :=
  { message := "Unknown ref: " ++ ref ++ ". Run " ++ sq ++ "snapshot" ++ sq ++
      " first to get element refs."
    ref := ref
    suggestion := some "snapshot" }

/-- The element-not-found error (`snapshot.ts` lines 768–773). -/
def notFoundError (ref : String) : RefResolutionError :=
  { message := "Element " ++ ref ++ " not found. UI may have changed. Run " ++
      sq ++ "snapshot" ++ sq ++ " for updated refs."
    ref := ref
    suggestion := some "snapshot" }

/-- The injected element finder (`ElementFinder` in `snapshot.ts`),
made pure: strategy and value to an optional WDA element id. -/
def ElementFinder := String → String → Option String

/-- The `type == '...' AND label == '...'` predicate string
(`snapshot.ts` line 752). -/
def typeLabelPredicate (type label : String) : String :=
  "type == " ++ sq ++ type ++ sq ++ " AND label == " ++ sq ++ label ++ sq

/-- The `label == '...'` predicate string (`snapshot.ts` line 761). -/
def labelPredicate (label : String) : String :=
  "label == " ++ sq ++ label ++ sq

/-- Fallback step 3 of `resolveRef` (`snapshot.ts` lines 759–766): query by
label alone, when the entry's label is truthy.  Returns the result together
with the queries issued, in order. -/
def resolveStep3 (ref : String) (entry : RefMapEntry) (find : ElementFinder) :
    Except RefResolutionError String × List (String × String) :=
  match entry.label with
  | some l =>
    if l = "" then (.error (notFoundError ref), [])
    else
      match find "predicate string" (labelPredicate l) with
      | some el => (.ok el, [("predicate string", labelPredicate l)])
      | none => (.error (notFoundError ref), [("predicate string", labelPredicate l)])
  | none => (.error (notFoundError ref), [])

/-- Fallback step 2 of `resolveRef` (`snapshot.ts` lines 750–757): query by
exact type AND label when both are truthy, else or on a miss fall through
to step 3. -/
def resolveStep2 (ref : String) (entry : RefMapEntry) (find : ElementFinder) :
    Except RefResolutionError String × List (String × String) :=
  match entry.label with
  | some l =>
    if l = "" ∨ entry.type = "" then resolveStep3 ref entry find
    else
      match find "predicate string" (typeLabelPredicate entry.type l) with
      | some el => (.ok el, [("predicate string", typeLabelPredicate entry.type l)])
      | none =>
        let (r, qs) := resolveStep3 ref entry find
        (r, ("predicate string", typeLabelPredicate entry.type l) :: qs)
  | none => resolveStep3 ref entry find

/-- Fallback step 1 of `resolveRef` (`snapshot.ts` lines 742–748): query by
accessibility identifier when truthy, else or on a miss fall through to
step 2. -/
def resolveStep1 (ref : String) (entry : RefMapEntry) (find : ElementFinder) :
    Except RefResolutionError String × List (String × String) :=
  match entry.identifier with
  | some ident =>
    if ident = "" then resolveStep2 ref entry find
    else
      match find "accessibility id" ident with
      | some el => (.ok el, [("accessibility id", ident)])
      | none =>
        let (r, qs) := resolveStep2 ref entry find
        (r, ("accessibility id", ident) :: qs)
  | none => resolveStep2 ref entry find

/-- `resolveRef` (`snapshot.ts` lines 717–774): format check, store lookup,
then the ordered fallback chain.  Returns the outcome together with the
finder queries issued, in order (empty list = the finder was never
invoked). -/
def resolveRefM (ref : String) (store : RefStore) (find : ElementFinder) :
    Except RefResolutionError String × List (String × String) :=
  if !startsWithM ref "@e" then (.error (invalidFormatError ref), [])
  else
    match storeGet store ref with
    | none => (.error (unknownRefError ref), [])
    | some entry => resolveStep1 ref entry find

/-! ## Device resolution (`simctl.ts` lines 64–85, `daemon.ts` lines 496–518) -/

/-- `Simulator` (`simctl.ts`). -/
structure Simulator where
  udid : String
  name : String
  state : String
  runtime : String
  isAvailable : Bool
deriving Repr, DecidableEq

/-- `findSimulator` (`simctl.ts` lines 64–79) over a given device list:
case-insensitive exact-name match first, else case-insensitive substring
match. -/
def findSimulatorM (name : String) (sims : List Simulator) : Option Simulator :=
  let lowerName := toLowerM name
  match sims.find? (fun s => toLowerM s.name = lowerName) with
  | some s => some s
  | none => sims.find? (fun s => containsSub (toLowerM s.name) lowerName)

/-- `getBootedSimulator` (`simctl.ts` lines 82–85). -/
def getBootedSimulatorM (sims : List Simulator) : Option Simulator :=
  sims.find? (fun s => s.state = "Booted")

/-- Outcome of the device-resolution prefix of `handleStartSession`. -/
inductive DeviceResolution where
  | found (s : Simulator)
  | notFoundNamed (name : String)
  | noneAvailable
deriving Repr, DecidableEq

/-- The selector-less branch of `handleStartSession`'s device resolution
(`daemon.ts` lines 506–518): the booted device, else — if any device
exists — the first device whose name contains `"iPhone"` (case-sensitive,
as in the source), else the first device; "No simulators available" only
when the list is empty. -/
def resolveDeviceDefault (sims : List Simulator) : DeviceResolution :=
  match getBootedSimulatorM sims with
  | some s => .found s
  | none =>
    match sims with
    | [] => .noneAvailable
    | s0 :: _ =>
      match sims.find? (fun s => containsSub s.name "iPhone") with
      | some s => .found s
      | none => .found s0

/-- The device-resolution logic of `handleStartSession`
(`daemon.ts` lines 496–518).  The source's `if (simName)` is a JS
truthiness test, so both an absent and an empty-string selector take the
selector-less branch; a truthy selector goes through `findSimulator` or a
"Simulator not found" error. -/
def resolveDevice (simName : Option String) (sims : List Simulator) : DeviceResolution :=
  match simName with
  | some name =>
    if name = "" then resolveDeviceDefault sims
    else
      match findSimulatorM name sims with
      | some s => .found s
      | none => .notFoundNamed name
  | none => resolveDeviceDefault sims

/-! ## Backend HTTP client (`wda-client.ts`)

`WDAClient.request` builds one `fetch` options object per call and turns a
non-2xx response into a thrown error whose message carries the body text.
The embedding makes the HTTP exchange explicit: the options the client
would send, and the response the transport returned. -/

/-- The `fetch` options built by `WDAClient.request`
(`wda-client.ts` lines 313–324). -/
structure RequestOptions where
  method : String
  contentTypeJson : Bool
  timeoutMs : Nat
  body : Option String
deriving Repr, DecidableEq

/-- Options construction in `WDAClient.request`: JSON content type, an
abort signal of 30000 ms, and the serialized body when one is given. -/
def mkRequestOptions (method : String) (body : Option String) : RequestOptions :=
  { method := method
    contentTypeJson := true
    timeoutMs := 30000
    body := body }

/-- An HTTP response as `request` observes it: `ok` (2xx), status code,
body text, and the decoded JSON `value` the caller would extract. -/
structure FetchResult (α : Type) where
  ok : Bool
  status : Nat
  text : String
  value : α
deriving Repr, DecidableEq

/-- Body of `WDAClient.request` (`wda-client.ts` lines 326–335) given the
transport's response: succeed with the decoded value, or throw
`` `WDA request failed: ${status} ${text}` ``. -/
def requestM {α : Type} (resp : FetchResult α) : Except String α :=
  if resp.ok then .ok resp.value
  else .error ("WDA request failed: " ++ toString resp.status ++ " " ++ resp.text)

/-- A found WDA element reference (`{ ELEMENT: string }`). -/
structure WDAElement where
  ELEMENT : String
deriving Repr, DecidableEq

/-- `WDAClient.findElement` (`wda-client.ts` lines 411–426): `ensureSession`
outside the try (its failure propagates), then the find request with every
request failure caught and turned into `null`. -/
def findElementM (ensure : Except String String) (resp : FetchResult WDAElement) :
    Except String (Option WDAElement) :=
  match ensure with
  | .error e => .error e
  | .ok _ =>
    match requestM resp with
    | .ok v => .ok (some v)
    | .error _ => .ok none

/-- `WDAClient.getAlertText` (`wda-client.ts` lines 473–484): request
failures caught, returning `null`. -/
def getAlertTextM (ensure : Except String String) (resp : FetchResult String) :
    Except String (Option String) :=
  match ensure with
  | .error e => .error e
  | .ok _ =>
    match requestM resp with
    | .ok v => .ok (some v)
    | .error _ => .ok none

/-- `WDAClient.getActiveAppInfo` (`wda-client.ts` lines 515–525): request
failures caught, returning `null`. -/
def getActiveAppInfoM (ensure : Except String String)
    (resp : FetchResult (String × String)) :
    Except String (Option (String × String)) :=
  match ensure with
  | .error e => .error e
  | .ok _ =>
    match requestM resp with
    | .ok v => .ok (some v)
    | .error _ => .ok none

/-- `WDAClient.click` (`wda-client.ts` lines 445–451): no catch, so a
request failure propagates with its message. -/
def clickM (ensure : Except String String) (resp : FetchResult Unit) :
    Except String Unit :=
  match ensure with
  | .error e => .error e
  | .ok _ =>
    match requestM resp with
    | .ok _ => .ok ()
    | .error e => .error e

/-! ## Session start (`daemon.ts` lines 491–579)

`handleStartSession` mutates the daemon's module-level `state` and drives
the simulator, the WDA manager and the WDA client.  The embedding passes
the state explicitly and represents each fallible external step's outcome
as an environment field (`none` = the step succeeded, `some msg` = it threw
with message `msg`); the externally visible actions are returned as an
effect trace. -/

/-- Daemon response (`protocol.ts` lines 235–262).  The success payload is
`unknown` in the source and unused by the claims, so only the envelope is
kept: correlation id, success flag, and the error message when failing. -/
structure Response where
  id : String
  success : Bool
  error : Option String
deriving Repr, DecidableEq

/-- `successResponse` (`protocol.ts` lines 252–256), payload dropped. -/
def successResponse (id : String) : Response :=
  { id := id, success := true, error := none }

/-- `errorResponse` (`protocol.ts` lines 258–262). -/
def errorResponse (id : String) (error : String) : Response :=
  { id := id, success := false, error := some error }

/-- The daemon's module-level session state (`daemon.ts` lines 414–428):
which of `simulator`, `wdaManager`, `wdaClient` are set, plus the ref
store.  The manager is recorded by the device it was created for. -/
structure SessionState where
  simulator : Option Simulator
  wdaManager : Option String
  wdaClient : Bool
  refStore : RefStore
deriving Repr, DecidableEq

/-- The pristine daemon state (`daemon.ts` lines 422–428). -/
def initialState : SessionState :=
  { simulator := none, wdaManager := none, wdaClient := false, refStore := [] }

/-- Externally visible actions of `handleStartSession`, in order. -/
inductive Effect where
  | bootSim (udid : String)
  | openSimApp
  | spawnWda (udid : String)
  | stopWda
  | createWdaSession
deriving Repr, DecidableEq

/-- Outcomes of the fallible external steps of one `handleStartSession`
run: `none` means the awaited call succeeded, `some msg` that it rejected
with message `msg`. -/
structure StartEnv where
  sims : List Simulator
  bootResult : Option String
  openResult : Option String
  wdaStartResult : Option String
  wdaReadyResult : Option String
  createSessionResult : Option String

/-- The WDA phase of `handleStartSession` (`daemon.ts` lines 529–559),
entered with the simulator already recorded in state: spawn the manager,
then `start` / `waitForReady` / `createSession`; on any failure stop the
manager and unset manager and client. -/
def startWdaPhase (env : StartEnv) (id : String) (sim : Simulator)
    (st : SessionState) : Response × SessionState × List Effect :=
  let st1 : SessionState := { st with wdaManager := some sim.udid }
  match env.wdaStartResult with
  | some msg =>
    (errorResponse id ("Simulator booted but WDA failed: " ++ msg),
      { st1 with wdaManager := none, wdaClient := false },
      [.spawnWda sim.udid, .stopWda])
  | none =>
    match env.wdaReadyResult with
    | some msg =>
      (errorResponse id ("Simulator booted but WDA failed: " ++ msg),
        { st1 with wdaManager := none, wdaClient := false },
        [.spawnWda sim.udid, .stopWda])
    | none =>
      let st2 : SessionState := { st1 with wdaClient := true }
      match env.createSessionResult with
      | some msg =>
        (errorResponse id ("Simulator booted but WDA failed: " ++ msg),
          { st2 with wdaManager := none, wdaClient := false },
          [.spawnWda sim.udid, .createWdaSession, .stopWda])
      | none =>
        (successResponse id, st2, [.spawnWda sim.udid, .createWdaSession])

/-- `handleStartSession` (`daemon.ts` lines 491–579): resolve the device,
boot it if needed (failures land in the outer catch as
`` `Failed to start session: ...` `` with the state untouched), record the
simulator, then run the WDA phase. -/
def handleStartSessionM (env : StartEnv) (id : String) (simName : Option String)
    (st : SessionState) : Response × SessionState × List Effect :=
  match resolveDevice simName env.sims with
  | .notFoundNamed name =>
    (errorResponse id ("Simulator not found: " ++ name ++ ". Run " ++ sq ++
        "agent-ios list-sims" ++ sq ++ " to see available simulators."),
      st, [])
  | .noneAvailable =>
    (errorResponse id "No simulators available. Install Xcode and create a simulator.",
      st, [])
  | .found sim =>
    if sim.state = "Booted" then
      let st1 : SessionState := { st with simulator := some sim }
      let (r, st2, effs) := startWdaPhase env id sim st1
      (r, st2, effs)
    else
      match env.bootResult with
      | some msg =>
        (errorResponse id ("Failed to start session: " ++ msg), st,
          [.bootSim sim.udid])
      | none =>
        match env.openResult with
        | some msg =>
          (errorResponse id ("Failed to start session: " ++ msg), st,
            [.bootSim sim.udid, .openSimApp])
        | none =>
          let sim2 : Simulator := { sim with state := "Booted" }
          let st1 : SessionState := { st with simulator := some sim2 }
          let (r, st2, effs) := startWdaPhase env id sim2 st1
          (r, st2, .bootSim sim.udid :: .openSimApp :: effs)

/-! ## Command channel (`socket-server.ts`)

`handleConnection` buffers bytes, splits on newlines, and feeds each
non-blank line to `processCommand`, which parses it and either dispatches
to the handler or writes an `"unknown"`-id protocol error.  Commands and
the parse function are abstracted: the claims quantify over lines that do
or do not parse. -/

/-- A parsed command, as far as the channel needs it: its correlation id. -/
structure Cmd where
  id : String
deriving Repr, DecidableEq

/-- `SocketServer.processCommand` (`socket-server.ts` lines 62–89): parse
the line; on failure write an error response with id `"unknown"`; otherwise
run the handler, converting a thrown `Error` into an error response tagged
with the command's id and carrying the error's message.  One response per
processed line, and the socket is never closed. -/
def processCommandM (parse : String → Option Cmd)
    (handler : Cmd → Except String Response) (line : String) : Response :=
  match parse line with
  | none => { id := "unknown", success := false, error := some "Invalid command format" }
  | some cmd =>
    match handler cmd with
    | .ok r => r
    | .error msg => { id := cmd.id, success := false, error := some msg }

/-- JS `line.trim()` used as a truthiness test: the trimmed line is empty
iff every character of the line is whitespace. -/
def jsBlank (s : String) : Bool :=
  s.toList.all (fun c => c.isWhitespace)

/-- The per-line loop of `handleConnection` (`socket-server.ts` lines
50–54): skip blank (whitespace-only) lines, process the rest in order. -/
def processLines (parse : String → Option Cmd)
    (handler : Cmd → Except String Response) (lines : List String) : List Response :=
  match lines with
  | [] => []
  | l :: rest =>
    if jsBlank l then processLines parse handler rest
    else processCommandM parse handler l :: processLines parse handler rest

/-- Newline splitting as JS `String.prototype.split("\n")` on a character
buffer: always at least one (possibly empty) segment, one extra segment per
newline. -/
def splitOnNl (s : List Char) : List (List Char) :=
  match s with
  | [] => [[]]
  | c :: cs =>
    let r := splitOnNl cs
    if c = '\n' then [] :: r
    else
      match r with
      | h :: t => (c :: h) :: t
      | [] => [[c]]

/-- One `data` event of `handleConnection` (`socket-server.ts` lines
43–55): append the chunk to the buffer, split on newlines, keep the last
(incomplete) segment as the new buffer, process the complete lines. -/
def handleData (parse : String → Option Cmd)
    (handler : Cmd → Except String Response) (buffer chunk : List Char) :
    List Char × List Response :=
  let parts := splitOnNl (buffer ++ chunk)
  (parts.getLastD [],
   processLines parse handler (parts.dropLast.map (fun l => String.mk l)))

/-! ## Claim C4 — resolution failures before any finder call -/

/-- C4: for every ref string, `resolveRef` fails with zero calls to the
injected element finder when the ref is malformed (rejected before lookup)
or absent from the Reference Table (an unknown-ref failure carrying the
`"snapshot"` suggestion); the finder is invoked only for refs present in
the table. -/
theorem resolveRef_rejects_before_lookup
    (ref : String) (store : RefStore) (find : ElementFinder) :
    (startsWithM ref "@e" = false →
       resolveRefM ref store find = (Except.error (invalidFormatError ref), [])) ∧
    (startsWithM ref "@e" = true → storeGet store ref = none →
       resolveRefM ref store find = (Except.error (unknownRefError ref), []) ∧
       (unknownRefError ref).suggestion = some "snapshot") ∧
    ((resolveRefM ref store find).2 ≠ [] → ∃ e, storeGet store ref = some e) := by
  refine ⟨?_, ?_, ?_⟩
  · intro h
    simp [resolveRefM, h]
  · intro h h2
    refine ⟨?_, rfl⟩
    simp [resolveRefM, h, h2]
  · intro hq
    by_cases h : startsWithM ref "@e"
    · cases h2 : storeGet store ref with
      | none => simp [resolveRefM, h, h2] at hq
      | some e => exact ⟨e, rfl⟩
    · simp only [Bool.not_eq_true] at h
      simp [resolveRefM, h] at hq

/-- Witness for C4: a ref without the `@e` prefix and an `@e` ref missing
from an empty store both fail with no finder queries. -/
theorem resolveRef_rejects_before_lookup_witness :
    (resolveRefM "e5" [] (fun _ _ => none) =
       (Except.error (invalidFormatError "e5"), []) ∧
     resolveRefM "@e9" [] (fun _ _ => none) =
       (Except.error (unknownRefError "@e9"), [])) :=
  ⟨(resolveRef_rejects_before_lookup "e5" [] (fun _ _ => none)).1 (by decide),
   ((resolveRef_rejects_before_lookup "@e9" [] (fun _ _ => none)).2.1
      (by decide) (by rfl)).1⟩

/-! ## Claim C7 — malformed lines answered with id `"unknown"`, connection kept -/

/-- Splitting a buffer that starts with a newline-free segment peels that
segment off as the first line. -/
theorem splitOnNl_append_nl (xs rest : List Char) (h : ∀ c ∈ xs, c ≠ '\n') :
    splitOnNl (xs ++ '\n' :: rest) = xs :: splitOnNl rest := by
  induction xs with
  | nil => simp [splitOnNl]
  | cons c cs ih =>
    have hc : c ≠ '\n' := h c (by simp)
    have ih' : splitOnNl (cs ++ '\n' :: rest) = cs :: splitOnNl rest :=
      ih (fun d hd => h d (by simp [hd]))
    simp [splitOnNl, hc, ih']

/-- Rebuilding a string from its character list is the identity. -/
theorem string_mk_data (s : String) : String.mk s.data = s := rfl

/-- C7: a received line that does not parse as a valid Command is answered
with an error Response whose correlation id is the literal `"unknown"` and
the connection is not closed, so a subsequent well-formed line on the same
connection is still dispatched and answered normally — both at the
line-processing level (later lines produce exactly the responses they
would produce on their own) and through the buffer-splitting `data`
handler. -/
theorem malformed_line_keeps_connection
    (parse : String → Option Cmd) (handler : Cmd → Except String Response)
    (bad good : String) (rest : List String) (cmd : Cmd) (r : Response)
    (hbad : parse bad = none) (hbadnb : jsBlank bad = false)
    (hgood : parse good = some cmd) (hgoodnb : jsBlank good = false)
    (hh : handler cmd = Except.ok r) :
    processLines parse handler (bad :: good :: rest) =
      { id := "unknown", success := false, error := some "Invalid command format" } ::
        r :: processLines parse handler rest ∧
    ((∀ c ∈ bad.toList, c ≠ '\n') → (∀ c ∈ good.toList, c ≠ '\n') →
      handleData parse handler []
          (bad.toList ++ '\n' :: (good.toList ++ ['\n'])) =
        ([], [{ id := "unknown", success := false, error := some "Invalid command format" }, r])) := by
  constructor
  · simp [processLines, hbadnb, hgoodnb, processCommandM, hbad, hgood, hh]
  · intro hbn hgn
    have h1 : splitOnNl (bad.toList ++ '\n' :: (good.toList ++ ['\n'])) =
        bad.toList :: good.toList :: [[]] := by
      rw [splitOnNl_append_nl _ _ hbn, splitOnNl_append_nl _ _ hgn]
      rfl
    simp only [String.toList] at h1
    simp [handleData, h1, string_mk_data, processLines, processCommandM,
      hbad, hbadnb, hgood, hgoodnb, hh, String.toList]

/-- Witness for C7: a concrete malformed then well-formed line, through
`processLines`. -/
theorem malformed_line_keeps_connection_witness :
    processLines (fun s => if s = "go" then some { id := "c1" } else none)
        (fun c => Except.ok (successResponse c.id)) ["bad", "go"] =
      [{ id := "unknown", success := false, error := some "Invalid command format" },
       successResponse "c1"] :=
  ((malformed_line_keeps_connection
      (fun s => if s = "go" then some { id := "c1" } else none)
      (fun c => Except.ok (successResponse c.id))
      "bad" "go" [] { id := "c1" } (successResponse "c1")
      (by decide) (by decide) (by decide) (by decide) (by rfl)).1).trans
    (by simp [processLines])

/-! ## Claim C6 — device-resolution fallback chain -/

/-- Counterexample to C6: a selector that matches no device fails with the
named "Simulator not found" error instead of falling through to the
later steps (an available device exists, yet neither it nor the
"no devices available" error is produced). -/
theorem device_selector_no_fallthrough_counterexample :
    resolveDevice (some "Nope")
        [{ udid := "UD1", name := "iPad Air", state := "Shutdown",
           runtime := "iOS 17.2", isAvailable := true }] =
      DeviceResolution.notFoundNamed "Nope" ∧
    handleStartSessionM
        { sims := [{ udid := "UD1", name := "iPad Air", state := "Shutdown",
                     runtime := "iOS 17.2", isAvailable := true }],
          bootResult := none, openResult := none, wdaStartResult := none,
          wdaReadyResult := none, createSessionResult := none }
        "i1" (some "Nope") initialState =
      (errorResponse "i1" ("Simulator not found: Nope. Run " ++ sq ++
          "agent-ios list-sims" ++ sq ++ " to see available simulators."),
        initialState, []) := by
  decide

/-- A falsy selector (absent, or the empty string reachable through the
protocol schema) takes the selector-less branch. -/
theorem resolveDevice_of_falsy (simName : Option String) (sims : List Simulator)
    (h : jsTruthy simName = false) :
    resolveDevice simName sims = resolveDeviceDefault sims := by
  cases simName with
  | none => rfl
  | some name =>
    have hne : name = "" := by
      simpa [jsTruthy] using h
    simp [resolveDevice, hne]

/-- The selector-less branch fails with "no devices available" exactly on
an empty device list. -/
theorem resolveDeviceDefault_noneAvailable_iff (sims : List Simulator) :
    resolveDeviceDefault sims = DeviceResolution.noneAvailable ↔ sims = [] := by
  cases hb : getBootedSimulatorM sims with
  | some b =>
    have hne : sims ≠ [] := by
      intro he
      subst he
      simp [getBootedSimulatorM] at hb
    simp [resolveDeviceDefault, hb, hne]
  | none =>
    cases sims with
    | nil => simp [resolveDeviceDefault, hb]
    | cons s0 rest =>
      cases hf : (s0 :: rest).find? (fun s => containsSub s.name "iPhone") <;>
        simp [resolveDeviceDefault, hb, hf]

/-- C6 (amended): with a truthy (non-empty) selector, resolution is
case-insensitive exact-name match, else case-insensitive substring match,
else a "Simulator not found" failure with no fallthrough to the remaining
steps; with a falsy selector (absent or the empty string, which the JS
truthiness test treats as absent) it is the already-booted device, else —
when any device exists — the first device whose name contains
`"iPhone"`, else the first device; the "no devices available" failure
occurs exactly when the selector is falsy and the device list is
empty. -/
theorem resolveDevice_chain (sims : List Simulator) :
    (∀ name : String, name ≠ "" →
       resolveDevice (some name) sims =
         (match sims.find? (fun s => toLowerM s.name = toLowerM name) with
          | some s => DeviceResolution.found s
          | none =>
            match sims.find? (fun s => containsSub (toLowerM s.name) (toLowerM name)) with
            | some s => DeviceResolution.found s
            | none => DeviceResolution.notFoundNamed name)) ∧
    (∀ simName : Option String,
       resolveDevice simName sims = DeviceResolution.noneAvailable ↔
         jsTruthy simName = false ∧ sims = []) ∧
    (∀ (simName : Option String) b, jsTruthy simName = false →
       getBootedSimulatorM sims = some b →
       resolveDevice simName sims = DeviceResolution.found b) ∧
    (∀ simName : Option String, jsTruthy simName = false →
       getBootedSimulatorM sims = none → ∀ s0 rest, sims = s0 :: rest →
       resolveDevice simName sims =
         (match sims.find? (fun s => containsSub s.name "iPhone") with
          | some s => DeviceResolution.found s
          | none => DeviceResolution.found s0)) := by
  refine ⟨?_, ?_, ?_, ?_⟩
  · intro name hne
    simp only [resolveDevice, findSimulatorM, if_neg hne]
    cases h1 : sims.find? (fun s => decide (toLowerM s.name = toLowerM name)) <;>
      simp [h1]
  · intro simName
    by_cases hf : jsTruthy simName = false
    · rw [resolveDevice_of_falsy simName sims hf]
      simp [hf, resolveDeviceDefault_noneAvailable_iff]
    · rcases simName with _ | name
      · simp [jsTruthy] at hf
      · have hne : name ≠ "" := by
          simpa [jsTruthy] using hf
        simp only [resolveDevice, if_neg hne]
        cases h1 : findSimulatorM name sims <;> simp [hf]
  · intro simName b hf h
    rw [resolveDevice_of_falsy simName sims hf]
    simp [resolveDeviceDefault, h]
  · intro simName hf h s0 rest hs
    rw [resolveDevice_of_falsy simName sims hf]
    subst hs
    simp [resolveDeviceDefault, h]

/-- Witness for C6 (amended): a booted device is picked both when no
selector is given and when the selector is the empty string. -/
theorem resolveDevice_chain_witness :
    resolveDevice none
        [{ udid := "UD2", name := "iPhone 15", state := "Booted",
           runtime := "iOS 17.2", isAvailable := true }] =
      DeviceResolution.found
        { udid := "UD2", name := "iPhone 15", state := "Booted",
          runtime := "iOS 17.2", isAvailable := true } ∧
    resolveDevice (some "")
        [{ udid := "UD2", name := "iPhone 15", state := "Booted",
           runtime := "iOS 17.2", isAvailable := true }] =
      DeviceResolution.found
        { udid := "UD2", name := "iPhone 15", state := "Booted",
          runtime := "iOS 17.2", isAvailable := true } :=
  ⟨(resolveDevice_chain
      [{ udid := "UD2", name := "iPhone 15", state := "Booted",
         runtime := "iOS 17.2", isAvailable := true }]).2.2.1
    none
    { udid := "UD2", name := "iPhone 15", state := "Booted",
      runtime := "iOS 17.2", isAvailable := true } (by decide) (by decide),
   (resolveDevice_chain
      [{ udid := "UD2", name := "iPhone 15", state := "Booted",
         runtime := "iOS 17.2", isAvailable := true }]).2.2.1
    (some "")
    { udid := "UD2", name := "iPhone 15", state := "Booted",
      runtime := "iOS 17.2", isAvailable := true } (by decide) (by decide)⟩

/-! ## Claim C5 — uniform timeout; who surfaces non-2xx body text -/

/-- Counterexample to C5: on a non-2xx response the underlying request
does fail with the body text, but the element-find, alert-text and
active-app-info calls — the very calls the claim includes — catch that
failure and return `null` instead of failing with the message. -/
theorem request_error_swallowed_counterexample :
    requestM (α := WDAElement)
        { ok := false, status := 404, text := "boom", value := { ELEMENT := "E1" } } =
      Except.error "WDA request failed: 404 boom" ∧
    findElementM (Except.ok "sess")
        { ok := false, status := 404, text := "boom", value := { ELEMENT := "E1" } } =
      Except.ok none ∧
    getAlertTextM (Except.ok "sess")
        { ok := false, status := 404, text := "boom", value := "v" } =
      Except.ok none ∧
    getActiveAppInfoM (Except.ok "sess")
        { ok := false, status := 404, text := "boom", value := ("b", "n") } =
      Except.ok none := by
  refine ⟨?_, rfl, rfl, rfl⟩
  rfl

/-- C5 (amended): every Backend Client request is issued with the uniform
bounded 30000 ms timeout, and a non-2xx response makes the underlying
request fail with an error message containing the response body text
verbatim; calls that propagate the request error (such as click) surface
that message, but the element-find, alert-text and active-app-info calls
catch request failures and return `null` instead of failing. -/
theorem request_uniform_timeout_and_error_text :
    (∀ method body, (mkRequestOptions method body).timeoutMs = 30000) ∧
    (∀ (α : Type) (resp : FetchResult α), resp.ok = false →
       requestM resp =
         Except.error ("WDA request failed: " ++ toString resp.status ++ " " ++ resp.text) ∧
       ∃ pre, requestM resp = Except.error (pre ++ resp.text)) ∧
    (∀ sid (resp : FetchResult Unit), resp.ok = false →
       clickM (Except.ok sid) resp =
         Except.error ("WDA request failed: " ++ toString resp.status ++ " " ++ resp.text)) ∧
    (∀ sid (resp : FetchResult WDAElement), resp.ok = false →
       findElementM (Except.ok sid) resp = Except.ok none) ∧
    (∀ sid (resp : FetchResult String), resp.ok = false →
       getAlertTextM (Except.ok sid) resp = Except.ok none) ∧
    (∀ sid (resp : FetchResult (String × String)), resp.ok = false →
       getActiveAppInfoM (Except.ok sid) resp = Except.ok none) := by
  refine ⟨fun _ _ => rfl, ?_, ?_, ?_, ?_, ?_⟩
  · intro α resp h
    refine ⟨?_, "WDA request failed: " ++ toString resp.status ++ " ", ?_⟩ <;>
      simp [requestM, h, String.append_assoc]
  · intro sid resp h
    simp [clickM, requestM, h]
  · intro sid resp h
    simp [findElementM, requestM, h]
  · intro sid resp h
    simp [getAlertTextM, requestM, h]
  · intro sid resp h
    simp [getActiveAppInfoM, requestM, h]

/-- Witness for C5 (amended): concrete options and a concrete non-2xx
response through the propagating and the catching calls. -/
theorem request_uniform_timeout_and_error_text_witness :
    (mkRequestOptions "GET" none).timeoutMs = 30000 ∧
    clickM (Except.ok "s1") { ok := false, status := 500, text := "oops", value := () } =
      Except.error ("WDA request failed: " ++ toString 500 ++ " " ++ "oops") ∧
    findElementM (Except.ok "s1")
        { ok := false, status := 500, text := "oops", value := { ELEMENT := "E" } } =
      Except.ok none :=
  ⟨request_uniform_timeout_and_error_text.1 "GET" none,
   request_uniform_timeout_and_error_text.2.2.1 "s1"
     { ok := false, status := 500, text := "oops", value := () } (by rfl),
   request_uniform_timeout_and_error_text.2.2.2.1 "s1"
     { ok := false, status := 500, text := "oops", value := { ELEMENT := "E" } } (by rfl)⟩

/-! ## Claim C10 — label and identifier default to the `name` attribute -/

/-- Counterexample to C10: a node carrying a `name` attribute whose value
is the empty string yields a descriptor with neither label nor identifier
set (JS `||` skips the falsy empty string), so not every node carrying a
`name` attribute gets both fields. -/
theorem name_attribute_empty_counterexample :
    attrGet [("name", "")] "name" = some "" ∧
    parseWDASourceNode (XMLNode.mk "A" [("name", "")] []) =
      { elements := [{ ref := "@e0", type := "A", label := none, identifier := none,
                       value := none, frameX := "0", frameY := "0", frameW := "0",
                       frameH := "0", enabled := true, visible := true, children := [] }],
        tree := "@e0",
        refMap := [("@e0", { type := "A", label := none, identifier := none })] } := by
  refine ⟨rfl, ?_⟩
  rfl

/-- A present non-empty string is truthy. -/
theorem jsTruthy_some {s : String} (h : s ≠ "") : jsTruthy (some s) = true := by
  simp [jsTruthy, h]

/-- A JS `a || b` is truthy whenever `b` is. -/
theorem jsTruthy_jsOr_right {a b : Option String} (hb : jsTruthy b = true) :
    jsTruthy (jsOr a b) = true := by
  by_cases h : jsTruthy a
  · simp [jsOr, h]
  · simp [jsOr, h, hb]

/-- C10 (amended): a node's descriptor label defaults to the node's
`name` attribute when `label` is absent or empty, and its identifier
defaults to `name` when `identifier` is absent or empty; every node whose
`name` attribute has a non-empty value yields a descriptor with both
label and identifier set, so such elements are resolved with the
by-identifier query first. -/
theorem name_defaults_label_and_identifier
    (tag : String) (attrs : List (String × String)) (children : List XMLNode)
    (ref : String) (childRefs : List String) (nm : String)
    (hnm : attrGet attrs "name" = some nm) (hne : nm ≠ "") :
    ((jsTruthy (attrGet attrs "label") = false →
       (mkElement (XMLNode.mk tag attrs children) ref childRefs).label = some nm) ∧
     (jsTruthy (attrGet attrs "identifier") = false →
       (mkElement (XMLNode.mk tag attrs children) ref childRefs).identifier = some nm) ∧
     jsTruthy (mkElement (XMLNode.mk tag attrs children) ref childRefs).label = true ∧
     jsTruthy (mkElement (XMLNode.mk tag attrs children) ref childRefs).identifier = true ∧
     (∀ find ref2, ∃ ident,
        (mkRefEntry (XMLNode.mk tag attrs children)
            (mkElement (XMLNode.mk tag attrs children) ref childRefs)).identifier =
          some ident ∧
        (resolveStep1 ref2
            (mkRefEntry (XMLNode.mk tag attrs children)
              (mkElement (XMLNode.mk tag attrs children) ref childRefs))
            find).2.head? = some ("accessibility id", ident))) := by
  have hlabel :
      (mkElement (XMLNode.mk tag attrs children) ref childRefs).label =
        jsOr (attrGet attrs "label") (attrGet attrs "name") := rfl
  have hident :
      (mkElement (XMLNode.mk tag attrs children) ref childRefs).identifier =
        jsOr (attrGet attrs "identifier") (attrGet attrs "name") := rfl
  have hnmT : jsTruthy (attrGet attrs "name") = true := by
    simp [jsTruthy, hnm, hne]
  refine ⟨?_, ?_, ?_, ?_, ?_⟩
  · intro h
    rw [hlabel]
    simp [jsOr, h, hnm, jsTruthy_some hne]
  · intro h
    rw [hident]
    simp [jsOr, h, hnm, jsTruthy_some hne]
  · rw [hlabel]
    exact jsTruthy_jsOr_right hnmT
  · rw [hident]
    exact jsTruthy_jsOr_right hnmT
  · intro find ref2
    have hT : jsTruthy (mkElement (XMLNode.mk tag attrs children) ref childRefs).identifier = true := by
      rw [hident]
      exact jsTruthy_jsOr_right hnmT
    rcases hv : (mkElement (XMLNode.mk tag attrs children) ref childRefs).identifier with _ | ident
    · rw [hv] at hT
      simp [jsTruthy] at hT
    · have hidne : ident ≠ "" := by
        rw [hv] at hT
        simpa [jsTruthy] using hT
      refine ⟨ident, ?_, ?_⟩
      · simp [mkRefEntry, hv, jsTruthy, hidne]
      · have hre :
            (mkRefEntry (XMLNode.mk tag attrs children)
                (mkElement (XMLNode.mk tag attrs children) ref childRefs)).identifier =
              some ident := by
          simp [mkRefEntry, hv, jsTruthy, hidne]
        cases hfind : find "accessibility id" ident <;>
          simp [resolveStep1, hre, hidne, hfind]

/-- Witness for C10 (amended): a node with `name="x"` and no label or
identifier attribute gets both fields set to `"x"` and is queried by
identifier first. -/
theorem name_defaults_label_and_identifier_witness :
    (mkElement (XMLNode.mk "A" [("name", "x")] []) "@e0" []).label = some "x" ∧
    (mkElement (XMLNode.mk "A" [("name", "x")] []) "@e0" []).identifier = some "x" :=
  ⟨(name_defaults_label_and_identifier "A" [("name", "x")] [] "@e0" [] "x"
      (by rfl) (by decide)).1 (by decide),
   (name_defaults_label_and_identifier "A" [("name", "x")] [] "@e0" [] "x"
      (by rfl) (by decide)).2.1 (by decide)⟩

/-! ## Parser structure lemmas (for C8, C9, C1) -/

/-- The ref stored on a built element is the ref passed in. -/
theorem mkElement_ref (n : XMLNode) (r : String) (c : List String) :
    (mkElement n r c).ref = r := rfl

/-- The children stored on a built element are the child refs passed in. -/
theorem mkElement_children (n : XMLNode) (r : String) (c : List String) :
    (mkElement n r c).children = c := rfl

/-- The type stored on a built element is the node's tag. -/
theorem mkElement_type (n : XMLNode) (r : String) (c : List String) :
    (mkElement n r c).type = n.tag := rfl

mutual

/-- Invariant of `processNode`: ref-map keys are exactly the produced
elements' refs (in order), the node's own ref is among them, and every
child ref recorded on any produced element is among them. -/
theorem processNode_inv (node : XMLNode) (ctr : Nat) :
    ∀ {ref : String} {ctr2 : Nat} {els : List Element}
      {rms : List (String × RefMapEntry)},
      processNode node ctr = (ref, ctr2, els, rms) →
      rms.map Prod.fst = els.map Element.ref ∧
      ref ∈ els.map Element.ref ∧
      (∀ el ∈ els, ∀ r ∈ el.children, r ∈ els.map Element.ref) := by
  cases node with
  | mk tag attrs children =>
    intro ref ctr2 els rms h
    rcases hpc : processChildren children (ctr + 1) with ⟨crs, c2, e2, r2⟩
    have ih := processChildren_inv children (ctr + 1) hpc
    rw [processNode, hpc] at h
    simp only [Prod.mk.injEq] at h
    obtain ⟨rfl, rfl, rfl, rfl⟩ := h
    refine ⟨?_, ?_, ?_⟩
    · simp [ih.1, mkElement_ref]
    · simp [mkElement_ref]
    · intro el hel r hr
      rcases List.mem_append.mp hel with hel2 | hel2
      · have := ih.2.2 el hel2 r hr
        simp only [List.map_append]
        exact List.mem_append_left _ this
      · have heq : el = mkElement (XMLNode.mk tag attrs children) (refName ctr) crs := by
          simpa using hel2
        subst heq
        rw [mkElement_children] at hr
        have := ih.2.1 r hr
        simp only [List.map_append]
        exact List.mem_append_left _ this

/-- Invariant of `processChildren`: ref-map keys are exactly the produced
elements' refs, each returned child ref is among them, and every child
ref recorded on any produced element is among them. -/
theorem processChildren_inv (nodes : List XMLNode) (ctr : Nat) :
    ∀ {rs : List String} {ctr2 : Nat} {els : List Element}
      {rms : List (String × RefMapEntry)},
      processChildren nodes ctr = (rs, ctr2, els, rms) →
      rms.map Prod.fst = els.map Element.ref ∧
      (∀ r ∈ rs, r ∈ els.map Element.ref) ∧
      (∀ el ∈ els, ∀ r ∈ el.children, r ∈ els.map Element.ref) := by
  cases nodes with
  | nil =>
    intro rs ctr2 els rms h
    rw [processChildren] at h
    simp only [Prod.mk.injEq] at h
    obtain ⟨rfl, rfl, rfl, rfl⟩ := h
    simp
  | cons c cs =>
    intro rs ctr2 els rms h
    rcases hn : processNode c ctr with ⟨r1, c1, e1, rm1⟩
    rcases hcs : processChildren cs c1 with ⟨rs2, cc2, e2, rm2⟩
    have ihn := processNode_inv c ctr hn
    have ihc := processChildren_inv cs c1 hcs
    rw [processChildren, hn] at h
    dsimp only at h
    rw [hcs] at h
    simp only [Prod.mk.injEq] at h
    obtain ⟨rfl, rfl, rfl, rfl⟩ := h
    refine ⟨?_, ?_, ?_⟩
    · simp [ihn.1, ihc.1]
    · intro r hr
      cases hr with
      | head =>
        simp only [List.map_append]
        exact List.mem_append_left _ ihn.2.1
      | tail _ hr2 =>
        simp only [List.map_append]
        exact List.mem_append_right _ (ihc.2.1 r hr2)
    · intro el hel r hr
      rcases List.mem_append.mp hel with hel2 | hel2
      · simp only [List.map_append]
        exact List.mem_append_left _ (ihn.2.2 el hel2 r hr)
      · simp only [List.map_append]
        exact List.mem_append_right _ (ihc.2.2 el hel2 r hr)

end

mutual

/-- One `processNode` call assigns the node the current counter value,
advances the counter by the node count of the subtree, and produces one
element per node. -/
theorem processNode_count (node : XMLNode) (ctr : Nat) :
    ∀ {ref : String} {ctr2 : Nat} {els : List Element}
      {rms : List (String × RefMapEntry)},
      processNode node ctr = (ref, ctr2, els, rms) →
      ref = refName ctr ∧ ctr2 = ctr + countNodes node ∧
      els.length = countNodes node := by
  cases node with
  | mk tag attrs children =>
    intro ref ctr2 els rms h
    rcases hpc : processChildren children (ctr + 1) with ⟨crs, c2, e2, r2⟩
    have ih := processChildren_count children (ctr + 1) hpc
    rw [processNode, hpc] at h
    simp only [Prod.mk.injEq] at h
    obtain ⟨rfl, rfl, rfl, rfl⟩ := h
    refine ⟨rfl, ?_, ?_⟩
    · simp [countNodes, preorderNodes, ih.1]
      omega
    · simp [countNodes, preorderNodes, ih.2]

/-- `processChildren` advances the counter by, and produces one element
per node of, the forest. -/
theorem processChildren_count (nodes : List XMLNode) (ctr : Nat) :
    ∀ {rs : List String} {ctr2 : Nat} {els : List Element}
      {rms : List (String × RefMapEntry)},
      processChildren nodes ctr = (rs, ctr2, els, rms) →
      ctr2 = ctr + (preorderForest nodes).length ∧
      els.length = (preorderForest nodes).length := by
  cases nodes with
  | nil =>
    intro rs ctr2 els rms h
    rw [processChildren] at h
    simp only [Prod.mk.injEq] at h
    obtain ⟨rfl, rfl, rfl, rfl⟩ := h
    simp [preorderForest]
  | cons c cs =>
    intro rs ctr2 els rms h
    rcases hn : processNode c ctr with ⟨r1, c1, e1, rm1⟩
    rcases hcs : processChildren cs c1 with ⟨rs2, cc2, e2, rm2⟩
    have ihn := processNode_count c ctr hn
    have ihc := processChildren_count cs c1 hcs
    rw [processChildren, hn] at h
    dsimp only at h
    rw [hcs] at h
    simp only [Prod.mk.injEq] at h
    obtain ⟨rfl, rfl, rfl, rfl⟩ := h
    constructor
    · simp [preorderForest, ihn.2.1, ihc.1, countNodes]
      omega
    · simp [preorderForest, ihn.2.2, ihc.2, countNodes]

end

mutual

/-- Document-order assignment by `processNode`: for each `i` below the
subtree's node count, the element produced for the `i`-th node in
document order has ref `refName (ctr + i)` and that node's tag. -/
theorem processNode_docorder (node : XMLNode) (ctr : Nat) :
    ∀ {ref : String} {ctr2 : Nat} {els : List Element}
      {rms : List (String × RefMapEntry)},
      processNode node ctr = (ref, ctr2, els, rms) →
      ∀ i (h : i < (preorderNodes node).length),
        ∃ el, el ∈ els ∧ el.ref = refName (ctr + i) ∧
          el.type = ((preorderNodes node).get ⟨i, h⟩).tag := by
  cases node with
  | mk tag attrs children =>
    intro ref ctr2 els rms h
    rcases hpc : processChildren children (ctr + 1) with ⟨crs, c2, e2, r2⟩
    rw [processNode, hpc] at h
    simp only [Prod.mk.injEq] at h
    obtain ⟨rfl, rfl, rfl, rfl⟩ := h
    intro i hi
    cases i with
    | zero =>
      refine ⟨mkElement (XMLNode.mk tag attrs children) (refName ctr) crs,
        by simp, by simp [mkElement_ref], ?_⟩
      simp [preorderNodes, mkElement_type, XMLNode.tag]
    | succ j =>
      have hj : j < (preorderForest children).length := by
        simpa [preorderNodes] using hi
      rcases processChildren_docorder children (ctr + 1) hpc j hj with
        ⟨el, hel, href, htype⟩
      refine ⟨el, List.mem_append_left _ hel, ?_, ?_⟩
      · rw [href]
        exact congrArg refName (by omega)
      · rw [htype]
        congr 1

/-- Document-order assignment by `processChildren` over a forest. -/
theorem processChildren_docorder (nodes : List XMLNode) (ctr : Nat) :
    ∀ {rs : List String} {ctr2 : Nat} {els : List Element}
      {rms : List (String × RefMapEntry)},
      processChildren nodes ctr = (rs, ctr2, els, rms) →
      ∀ i (h : i < (preorderForest nodes).length),
        ∃ el, el ∈ els ∧ el.ref = refName (ctr + i) ∧
          el.type = ((preorderForest nodes).get ⟨i, h⟩).tag := by
  cases nodes with
  | nil =>
    intro rs ctr2 els rms h i hi
    simp [preorderForest] at hi
  | cons c cs =>
    intro rs ctr2 els rms h
    rcases hn : processNode c ctr with ⟨r1, c1, e1, rm1⟩
    rcases hcs : processChildren cs c1 with ⟨rs2, cc2, e2, rm2⟩
    rw [processChildren, hn] at h
    dsimp only at h
    rw [hcs] at h
    simp only [Prod.mk.injEq] at h
    obtain ⟨rfl, rfl, rfl, rfl⟩ := h
    intro i hi
    by_cases hlt : i < (preorderNodes c).length
    · rcases processNode_docorder c ctr hn i hlt with ⟨el, hel, href, htype⟩
      refine ⟨el, List.mem_append_left _ hel, href, ?_⟩
      rw [htype]
      congr 1
      simp [preorderForest, List.getElem_append_left hlt]
    · push_neg at hlt
      have hc1 : c1 = ctr + (preorderNodes c).length := by
        have := (processNode_count c ctr hn).2.1
        simpa [countNodes] using this
      have hj : i - (preorderNodes c).length < (preorderForest cs).length := by
        simp [preorderForest] at hi
        omega
      rcases processChildren_docorder cs c1 hcs (i - (preorderNodes c).length) hj with
        ⟨el, hel, href, htype⟩
      refine ⟨el, List.mem_append_right _ hel, ?_, ?_⟩
      · rw [href]
        exact congrArg refName (by omega)
      · rw [htype]
        congr 1
        simp [preorderForest, List.getElem_append_right hlt]

end

mutual

/-- Every element produced by `processNode` has a ref of the form
`refName (ctr + i)` with `i` below the subtree's node count. -/
theorem processNode_bounded (node : XMLNode) (ctr : Nat) :
    ∀ {ref : String} {ctr2 : Nat} {els : List Element}
      {rms : List (String × RefMapEntry)},
      processNode node ctr = (ref, ctr2, els, rms) →
      ∀ el ∈ els, ∃ i, i < countNodes node ∧ el.ref = refName (ctr + i) := by
  cases node with
  | mk tag attrs children =>
    intro ref ctr2 els rms h
    rcases hpc : processChildren children (ctr + 1) with ⟨crs, c2, e2, r2⟩
    rw [processNode, hpc] at h
    simp only [Prod.mk.injEq] at h
    obtain ⟨rfl, rfl, rfl, rfl⟩ := h
    intro el hel
    rcases List.mem_append.mp hel with hel2 | hel2
    · rcases processChildren_bounded children (ctr + 1) hpc el hel2 with ⟨i, hi, he⟩
      refine ⟨i + 1, ?_, ?_⟩
      · simp [countNodes, preorderNodes]
        omega
      · rw [he]
        exact congrArg refName (by omega)
    · have heq : el = mkElement (XMLNode.mk tag attrs children) (refName ctr) crs := by
        simpa using hel2
      subst heq
      refine ⟨0, ?_, by simp [mkElement_ref]⟩
      simp [countNodes, preorderNodes]

/-- Every element produced by `processChildren` has a ref of the form
`refName (ctr + i)` with `i` below the forest's node count. -/
theorem processChildren_bounded (nodes : List XMLNode) (ctr : Nat) :
    ∀ {rs : List String} {ctr2 : Nat} {els : List Element}
      {rms : List (String × RefMapEntry)},
      processChildren nodes ctr = (rs, ctr2, els, rms) →
      ∀ el ∈ els, ∃ i, i < (preorderForest nodes).length ∧
        el.ref = refName (ctr + i) := by
  cases nodes with
  | nil =>
    intro rs ctr2 els rms h
    rw [processChildren] at h
    simp only [Prod.mk.injEq] at h
    obtain ⟨rfl, rfl, rfl, rfl⟩ := h
    intro el hel
    simp at hel
  | cons c cs =>
    intro rs ctr2 els rms h
    rcases hn : processNode c ctr with ⟨r1, c1, e1, rm1⟩
    rcases hcs : processChildren cs c1 with ⟨rs2, cc2, e2, rm2⟩
    rw [processChildren, hn] at h
    dsimp only at h
    rw [hcs] at h
    simp only [Prod.mk.injEq] at h
    obtain ⟨rfl, rfl, rfl, rfl⟩ := h
    intro el hel
    have hc1 : c1 = ctr + (preorderNodes c).length := by
      have := (processNode_count c ctr hn).2.1
      simpa [countNodes] using this
    rcases List.mem_append.mp hel with hel2 | hel2
    · rcases processNode_bounded c ctr hn el hel2 with ⟨i, hi, he⟩
      refine ⟨i, ?_, he⟩
      simp [preorderForest, countNodes] at hi ⊢
      omega
    · rcases processChildren_bounded cs c1 hcs el hel2 with ⟨i, hi, he⟩
      refine ⟨(preorderNodes c).length + i, ?_, ?_⟩
      · simp [preorderForest]
        omega
      · rw [he]
        exact congrArg refName (by omega)

end

/-- Every tree has at least one node. -/
theorem countNodes_pos (node : XMLNode) : 0 < countNodes node := by
  cases node
  simp [countNodes, preorderNodes]

/-- The refMap keys of a parsed snapshot are exactly the counter tokens
`refName 0` … `refName (countNodes root - 1)`. -/
theorem refMap_keys_iff (root : XMLNode) (k : String) :
    k ∈ (parseWDASourceNode root).refMap.map Prod.fst ↔
      ∃ i, i < countNodes root ∧ k = refName i := by
  rcases hp : processNode root 0 with ⟨ref, c2, els, rms⟩
  rw [parseWDASourceNode, hp]
  show k ∈ rms.map Prod.fst ↔ _
  rw [(processNode_inv root 0 hp).1]
  constructor
  · intro hk
    rcases List.mem_map.mp hk with ⟨el, hel, hrefeq⟩
    rcases processNode_bounded root 0 hp el hel with ⟨i, hi, he⟩
    exact ⟨i, hi, by rw [← hrefeq, he, Nat.zero_add]⟩
  · rintro ⟨i, hi, rfl⟩
    have hi' : i < (preorderNodes root).length := by
      simpa [countNodes] using hi
    rcases processNode_docorder root 0 hp i hi' with ⟨el, hel, href, _⟩
    exact List.mem_map.mpr ⟨el, hel, by rw [href, Nat.zero_add]⟩

/-! ## Claim C9 — references are counter tokens in document order -/

/-- C9: on every parse of a tree with `n` nodes, the refMap keys are
exactly the tokens `refName 0` … `refName (n-1)` (`"@e0"` …
`"@e(n-1)"`), the `i`-th node in document order receives `refName i`, one
element is produced per node, the snapshot's root reference is `"@e0"`
(the counter restarts at zero on each call), and consequently the token
sets of any two snapshots overlap (at least at `"@e0"`). -/
theorem snapshot_counter_token_assignment (root : XMLNode) :
    (parseWDASourceNode root).tree = refName 0 ∧
    (parseWDASourceNode root).elements.length = countNodes root ∧
    (∀ k, k ∈ (parseWDASourceNode root).refMap.map Prod.fst ↔
       ∃ i, i < countNodes root ∧ k = refName i) ∧
    (∀ i (h : i < (preorderNodes root).length),
       ∃ el, el ∈ (parseWDASourceNode root).elements ∧ el.ref = refName i ∧
         el.type = ((preorderNodes root).get ⟨i, h⟩).tag) ∧
    (∀ root2 : XMLNode, ∃ k,
       k ∈ (parseWDASourceNode root).refMap.map Prod.fst ∧
       k ∈ (parseWDASourceNode root2).refMap.map Prod.fst) := by
  refine ⟨?_, ?_, refMap_keys_iff root, ?_, ?_⟩
  · rcases hp : processNode root 0 with ⟨ref, c2, els, rms⟩
    rw [parseWDASourceNode, hp]
    exact (processNode_count root 0 hp).1
  · rcases hp : processNode root 0 with ⟨ref, c2, els, rms⟩
    rw [parseWDASourceNode, hp]
    exact (processNode_count root 0 hp).2.2
  · intro i hi
    rcases hp : processNode root 0 with ⟨ref, c2, els, rms⟩
    rcases processNode_docorder root 0 hp i hi with ⟨el, hel, href, htype⟩
    rw [parseWDASourceNode, hp]
    exact ⟨el, hel, by rw [href, Nat.zero_add], htype⟩
  · intro root2
    exact ⟨refName 0,
      (refMap_keys_iff root (refName 0)).mpr ⟨0, countNodes_pos root, rfl⟩,
      (refMap_keys_iff root2 (refName 0)).mpr ⟨0, countNodes_pos root2, rfl⟩⟩

/-- Witness for C9: in a concrete two-node tree the second document-order
node gets `refName 1` (`"@e1"`). -/
theorem snapshot_counter_token_assignment_witness :
    ∃ el, el ∈ (parseWDASourceNode (XMLNode.mk "A" [] [XMLNode.mk "B" [] []])).elements ∧
      el.ref = refName 1 ∧
      el.type = ((preorderNodes (XMLNode.mk "A" [] [XMLNode.mk "B" [] []])).get
          ⟨1, by decide⟩).tag :=
  (snapshot_counter_token_assignment (XMLNode.mk "A" [] [XMLNode.mk "B" [] []])).2.2.2.1
    1 (by decide)

/-! ## Claim C8 — no dangling child references -/

/-- C8: in every snapshot produced by the parser, every reference
appearing in any element's children list is also a key of that snapshot's
refMap. -/
theorem snapshot_no_dangling_child_refs (root : XMLNode) (el : Element) (r : String)
    (h1 : el ∈ (parseWDASourceNode root).elements) (h2 : r ∈ el.children) :
    ∃ entry, (r, entry) ∈ (parseWDASourceNode root).refMap := by
  rcases hp : processNode root 0 with ⟨ref, c2, els, rms⟩
  have inv := processNode_inv root 0 hp
  rw [parseWDASourceNode, hp] at h1 ⊢
  dsimp only at h1 ⊢
  have hmem : r ∈ els.map Element.ref := inv.2.2 el h1 r h2
  rw [← inv.1] at hmem
  rcases List.mem_map.mp hmem with ⟨p, hp2, hp3⟩
  exact ⟨p.2, by rwa [show (r, p.2) = p from Prod.ext hp3.symm rfl]⟩

/-- Witness for C8: the parent's child reference `@e1` is a refMap key in
a concrete two-node snapshot. -/
theorem snapshot_no_dangling_child_refs_witness :
    ∃ entry,
      ("@e1", entry) ∈
        (parseWDASourceNode (XMLNode.mk "A" [] [XMLNode.mk "B" [] []])).refMap :=
  snapshot_no_dangling_child_refs (XMLNode.mk "A" [] [XMLNode.mk "B" [] []])
    { ref := "@e0", type := "A", label := none, identifier := none,
      value := none, frameX := "0", frameY := "0", frameW := "0", frameH := "0",
      enabled := true, visible := true, children := ["@e1"] }
    "@e1" (by decide) (by decide)

/-! ## Claim C1 — stale tokens across snapshot generations -/

/-- Last binding for `k` in an entry list (JS `Map.set` iteration makes
the last write win). -/
def lookupLast (l : List (String × RefMapEntry)) (k : String) : Option RefMapEntry :=
  match l with
  | [] => none
  | p :: rest =>
    match lookupLast rest k with
    | some v => some v
    | none => if p.1 = k then some p.2 else none

/-- `storeGet` after `storeSet`. -/
theorem storeGet_storeSet (store : RefStore) (k : String) (v : RefMapEntry)
    (k' : String) :
    storeGet (storeSet store k v) k' = if k' = k then some v else storeGet store k' := by
  induction store with
  | nil =>
    by_cases h : k' = k
    · simp [storeSet, storeGet, h]
    · simp [storeSet, storeGet, h, Ne.symm h]
  | cons p rest ih =>
    rcases p with ⟨k0, v0⟩
    by_cases h0 : k0 = k
    · subst h0
      by_cases h : k' = k0
      · simp [storeSet, storeGet, h]
      · simp [storeSet, storeGet, h, Ne.symm h]
    · by_cases h : k' = k0
      · subst h
        simp [storeSet, storeGet, h0, Ne.symm h0]
      · simp [storeSet, storeGet, h0, Ne.symm h, h]
        simpa [storeGet] using ih

/-- `storeGet` after folding `storeSet` over an entry list: the last
binding in the list wins, else the original store answers. -/
theorem storeGet_foldl_storeSet (l : List (String × RefMapEntry)) (st : RefStore)
    (k : String) :
    storeGet (l.foldl (fun s p => storeSet s p.1 p.2) st) k =
      match lookupLast l k with
      | some v => some v
      | none => storeGet st k := by
  induction l generalizing st with
  | nil => simp [lookupLast]
  | cons p rest ih =>
    rw [List.foldl_cons, ih]
    rcases hrest : lookupLast rest k with _ | v
    · rw [storeGet_storeSet]
      rw [show lookupLast (p :: rest) k =
            (match lookupLast rest k with
             | some v => some v
             | none => if p.1 = k then some p.2 else none) from rfl, hrest]
      by_cases h : p.1 = k
      · simp [h]
      · have h' : ¬k = p.1 := fun hk => h hk.symm
        simp [h, h']
    · rw [show lookupLast (p :: rest) k =
            (match lookupLast rest k with
             | some v => some v
             | none => if p.1 = k then some p.2 else none) from rfl, hrest]

/-- A key has a last binding iff it occurs among the keys. -/
theorem lookupLast_isSome_iff (l : List (String × RefMapEntry)) (k : String) :
    (lookupLast l k).isSome = true ↔ k ∈ l.map Prod.fst := by
  induction l with
  | nil => simp [lookupLast]
  | cons p rest ih =>
    rcases hrest : lookupLast rest k with _ | v
    · rw [hrest] at ih
      by_cases h : p.1 = k
      · simp [lookupLast, hrest, h]
      · have h' : ¬k = p.1 := fun hk => h hk.symm
        simp [lookupLast, hrest, h, h', ← ih]
    · rw [hrest] at ih
      simp [lookupLast, hrest]
      exact Or.inr (by simpa using ih)

/-- Counterexample to C1: parse `<A><B label="Bee"/></A>`, replace the
table via the snapshot update, then parse `<A><C label="Cee"/></A>` and
replace again.  The token `"@e1"`, assigned in the first generation to the
`B` element, is a key of the new table bound to the `C` element's
descriptor, and resolving it succeeds against the new element instead of
failing. -/
theorem stale_ref_rebound_counterexample :
    storeGet
        (refStoreAfterSnapshot []
          (parseWDASourceNode
            (XMLNode.mk "A" [] [XMLNode.mk "B" [("label", "Bee")] []])))
        "@e1" = some { type := "B", label := some "Bee" } ∧
    storeGet
        (refStoreAfterSnapshot
          (refStoreAfterSnapshot []
            (parseWDASourceNode
              (XMLNode.mk "A" [] [XMLNode.mk "B" [("label", "Bee")] []])))
          (parseWDASourceNode
            (XMLNode.mk "A" [] [XMLNode.mk "C" [("label", "Cee")] []])))
        "@e1" = some { type := "C", label := some "Cee" } ∧
    (resolveRefM "@e1"
        (refStoreAfterSnapshot
          (refStoreAfterSnapshot []
            (parseWDASourceNode
              (XMLNode.mk "A" [] [XMLNode.mk "B" [("label", "Bee")] []])))
          (parseWDASourceNode
            (XMLNode.mk "A" [] [XMLNode.mk "C" [("label", "Cee")] []])))
        (fun _ v => if v = typeLabelPredicate "C" "Cee" then some "elemC" else none)).1 =
      Except.ok "elemC" := by
  refine ⟨rfl, rfl, ?_⟩
  rfl

/-- C1 (amended): each snapshot replaces the Reference Table wholesale —
the updated store does not depend on the previous contents — and a stale
token fails resolution (immediately, with no finder query) if and only if
it is not a key of the new table; because the reference counter restarts
at zero on every snapshot, a token also assigned in the new generation
(always including `"@e0"`) remains a key of the new table and resolves
against the new generation's descriptor instead of failing. -/
theorem snapshot_replaces_table_wholesale :
    (∀ st1 st2 snap, refStoreAfterSnapshot st1 snap = refStoreAfterSnapshot st2 snap) ∧
    (∀ st snap ref (find : ElementFinder), startsWithM ref "@e" = true →
       (storeGet (refStoreAfterSnapshot st snap) ref = none →
          resolveRefM ref (refStoreAfterSnapshot st snap) find =
            (Except.error (unknownRefError ref), [])) ∧
       (∀ e, storeGet (refStoreAfterSnapshot st snap) ref = some e →
          resolveRefM ref (refStoreAfterSnapshot st snap) find =
            resolveStep1 ref e find)) ∧
    (∀ st root,
       (storeGet (refStoreAfterSnapshot st (parseWDASourceNode root))
           (refName 0)).isSome = true) := by
  refine ⟨fun _ _ _ => rfl, ?_, ?_⟩
  · intro st snap ref find hs
    constructor
    · intro h
      simp [resolveRefM, hs, h]
    · intro e h
      simp [resolveRefM, hs, h]
  · intro st root
    rw [refStoreAfterSnapshot, storeGet_foldl_storeSet]
    have hk : refName 0 ∈ (parseWDASourceNode root).refMap.map Prod.fst :=
      (refMap_keys_iff root (refName 0)).mpr ⟨0, countNodes_pos root, rfl⟩
    have := (lookupLast_isSome_iff (parseWDASourceNode root).refMap (refName 0)).mpr hk
    rcases hl : lookupLast (parseWDASourceNode root).refMap (refName 0) with _ | v
    · rw [hl] at this
      simp at this
    · simp

/-- Witness for C1 (amended): a token absent from the new table fails
with no finder query; the rebound `"@e0"` stays resolvable. -/
theorem snapshot_replaces_table_wholesale_witness :
    resolveRefM "@e7"
        (refStoreAfterSnapshot [] (parseWDASourceNode (XMLNode.mk "A" [] [])))
        (fun _ _ => none) =
      (Except.error (unknownRefError "@e7"), []) ∧
    (storeGet
        (refStoreAfterSnapshot [] (parseWDASourceNode (XMLNode.mk "A" [] [])))
        (refName 0)).isSome = true :=
  ⟨(snapshot_replaces_table_wholesale.2.1 []
      (parseWDASourceNode (XMLNode.mk "A" [] [])) "@e7" (fun _ _ => none)
      (by decide)).1 (by rfl),
   snapshot_replaces_table_wholesale.2.2 [] (XMLNode.mk "A" [] [])⟩

/-! ## Claim C2 — rollback on session-start failure -/

/-- Counterexample to C2: when the backend launch fails, the handler
reports an error and unsets the backend manager and client, but
`state.simulator` keeps the resolved simulator — the daemon state does not
return to Idle with all three unset. -/
theorem start_failure_keeps_simulator_counterexample :
    handleStartSessionM
        { sims := [{ udid := "UD1", name := "iPhone 15", state := "Shutdown",
                     runtime := "iOS 17.2", isAvailable := true }],
          bootResult := none, openResult := none, wdaStartResult := some "boom",
          wdaReadyResult := none, createSessionResult := none }
        "i1" none initialState =
      (errorResponse "i1" "Simulator booted but WDA failed: boom",
       { simulator := some { udid := "UD1", name := "iPhone 15", state := "Booted",
                             runtime := "iOS 17.2", isAvailable := true },
         wdaManager := none, wdaClient := false, refStore := [] },
       [Effect.bootSim "UD1", Effect.openSimApp, Effect.spawnWda "UD1", Effect.stopWda]) ∧
    (handleStartSessionM
        { sims := [{ udid := "UD1", name := "iPhone 15", state := "Shutdown",
                     runtime := "iOS 17.2", isAvailable := true }],
          bootResult := none, openResult := none, wdaStartResult := some "boom",
          wdaReadyResult := none, createSessionResult := none }
        "i1" none initialState).2.1.simulator ≠ none := by
  refine ⟨?_, ?_⟩ <;> decide

/-- C2 (amended): every failing start-session reports one descriptive
error and either leaves the daemon state exactly as it was (failures
before the backend launch, where no backend was spawned) or stops the
spawned backend and unsets the backend manager and client — but in that
case the resolved simulator remains recorded in state rather than the
whole state returning to Idle. -/
theorem start_failure_rollback
    (env : StartEnv) (id : String) (simName : Option String) (st : SessionState)
    (hfail : (handleStartSessionM env id simName st).1.success = false) :
    (handleStartSessionM env id simName st).1.error ≠ none ∧
    (((handleStartSessionM env id simName st).2.1 = st ∧
        ∀ u, Effect.spawnWda u ∉ (handleStartSessionM env id simName st).2.2) ∨
      ((handleStartSessionM env id simName st).2.1.wdaManager = none ∧
        (handleStartSessionM env id simName st).2.1.wdaClient = false ∧
        (handleStartSessionM env id simName st).2.1.simulator ≠ none ∧
        ∃ u, Effect.spawnWda u ∈ (handleStartSessionM env id simName st).2.2 ∧
          Effect.stopWda ∈ (handleStartSessionM env id simName st).2.2)) := by
  rcases hdev : resolveDevice simName env.sims with sim | name | _
  · by_cases hb : sim.state = "Booted"
    · rcases hws : env.wdaStartResult with _ | msg
      · rcases hwr : env.wdaReadyResult with _ | msg
        · rcases hcs : env.createSessionResult with _ | msg
          · simp [handleStartSessionM, hdev, hb, startWdaPhase, hws, hwr, hcs,
              successResponse] at hfail
          · refine ⟨?_, Or.inr ⟨?_, ?_, ?_, sim.udid, ?_, ?_⟩⟩ <;>
              simp [handleStartSessionM, hdev, hb, startWdaPhase, hws, hwr, hcs,
                errorResponse]
        · refine ⟨?_, Or.inr ⟨?_, ?_, ?_, sim.udid, ?_, ?_⟩⟩ <;>
            simp [handleStartSessionM, hdev, hb, startWdaPhase, hws, hwr, errorResponse]
      · refine ⟨?_, Or.inr ⟨?_, ?_, ?_, sim.udid, ?_, ?_⟩⟩ <;>
          simp [handleStartSessionM, hdev, hb, startWdaPhase, hws, errorResponse]
    · rcases hboot : env.bootResult with _ | msg
      · rcases hopen : env.openResult with _ | msg
        · rcases hws : env.wdaStartResult with _ | msg
          · rcases hwr : env.wdaReadyResult with _ | msg
            · rcases hcs : env.createSessionResult with _ | msg
              · simp [handleStartSessionM, hdev, hb, hboot, hopen, startWdaPhase,
                  hws, hwr, hcs, successResponse] at hfail
              · refine ⟨?_, Or.inr ⟨?_, ?_, ?_, sim.udid, ?_, ?_⟩⟩ <;>
                  simp [handleStartSessionM, hdev, hb, hboot, hopen, startWdaPhase,
                    hws, hwr, hcs, errorResponse]
            · refine ⟨?_, Or.inr ⟨?_, ?_, ?_, sim.udid, ?_, ?_⟩⟩ <;>
                simp [handleStartSessionM, hdev, hb, hboot, hopen, startWdaPhase,
                  hws, hwr, errorResponse]
          · refine ⟨?_, Or.inr ⟨?_, ?_, ?_, sim.udid, ?_, ?_⟩⟩ <;>
              simp [handleStartSessionM, hdev, hb, hboot, hopen, startWdaPhase,
                hws, errorResponse]
        · refine ⟨?_, Or.inl ⟨?_, ?_⟩⟩ <;>
            simp [handleStartSessionM, hdev, hb, hboot, hopen, errorResponse]
      · refine ⟨?_, Or.inl ⟨?_, ?_⟩⟩ <;>
          simp [handleStartSessionM, hdev, hb, hboot, errorResponse]
  · refine ⟨?_, Or.inl ⟨?_, ?_⟩⟩ <;>
      simp [handleStartSessionM, hdev, errorResponse]
  · refine ⟨?_, Or.inl ⟨?_, ?_⟩⟩ <;>
      simp [handleStartSessionM, hdev, errorResponse]

/-- Witness for C2 (amended): a readiness-timeout failure stops the
spawned backend and unsets manager and client. -/
theorem start_failure_rollback_witness :
    (handleStartSessionM
        { sims := [{ udid := "UD1", name := "iPhone 15", state := "Booted",
                     runtime := "iOS 17.2", isAvailable := true }],
          bootResult := none, openResult := none, wdaStartResult := none,
          wdaReadyResult := some "WDA did not become ready within 10s",
          createSessionResult := none }
        "i2" none initialState).1.success = false ∧
    (handleStartSessionM
        { sims := [{ udid := "UD1", name := "iPhone 15", state := "Booted",
                     runtime := "iOS 17.2", isAvailable := true }],
          bootResult := none, openResult := none, wdaStartResult := none,
          wdaReadyResult := some "WDA did not become ready within 10s",
          createSessionResult := none }
        "i2" none initialState).1.error ≠ none :=
  ⟨by decide,
   (start_failure_rollback
      { sims := [{ udid := "UD1", name := "iPhone 15", state := "Booted",
                   runtime := "iOS 17.2", isAvailable := true }],
        bootResult := none, openResult := none, wdaStartResult := none,
        wdaReadyResult := some "WDA did not become ready within 10s",
        createSessionResult := none }
      "i2" none initialState (by decide)).1⟩

/-! ## Claim C3 — resolution fallback chain is not shape-exclusive -/

/-- Counterexample to C3: for a descriptor that has an identifier (and a
label), a miss on the by-identifier query falls through to both predicate
queries — the predicate queries are not reserved for descriptors without
an identifier, so the steps are not mutually exclusive by descriptor
shape. -/
theorem resolve_chain_counterexample :
    resolveRefM "@e0"
        [("@e0", { type := "A", identifier := some "x", label := some "Y" })]
        (fun _ _ => none) =
      (Except.error (notFoundError "@e0"),
       [("accessibility id", "x"),
        ("predicate string", typeLabelPredicate "A" "Y"),
        ("predicate string", labelPredicate "Y")]) := by
  rfl

/-- C3 (amended): resolution is an ordered fallback chain — the
by-identifier query is issued first whenever the descriptor has a truthy
identifier and ends the call when it succeeds, but on a miss the call
falls through to the predicate queries (exact type AND label when both
are truthy, then label alone) rather than stopping; descriptors without a
truthy identifier skip directly to the predicate steps; each step issues
at most one query, first success wins, no retries within one call. -/
theorem resolve_fallback_chain :
    (∀ ref entry (find : ElementFinder) ident,
       entry.identifier = some ident → ident ≠ "" →
       (∀ el, find "accessibility id" ident = some el →
          resolveStep1 ref entry find = (Except.ok el, [("accessibility id", ident)])) ∧
       (find "accessibility id" ident = none →
          resolveStep1 ref entry find =
            ((resolveStep2 ref entry find).1,
             ("accessibility id", ident) :: (resolveStep2 ref entry find).2))) ∧
    (∀ ref entry (find : ElementFinder),
       entry.identifier = none ∨ entry.identifier = some "" →
       resolveStep1 ref entry find = resolveStep2 ref entry find) ∧
    (∀ ref entry (find : ElementFinder) l,
       entry.label = some l → l ≠ "" → entry.type ≠ "" →
       (∀ el, find "predicate string" (typeLabelPredicate entry.type l) = some el →
          resolveStep2 ref entry find =
            (Except.ok el, [("predicate string", typeLabelPredicate entry.type l)])) ∧
       (find "predicate string" (typeLabelPredicate entry.type l) = none →
          resolveStep2 ref entry find =
            ((resolveStep3 ref entry find).1,
             ("predicate string", typeLabelPredicate entry.type l) ::
               (resolveStep3 ref entry find).2))) ∧
    (∀ ref entry (find : ElementFinder) l,
       entry.label = some l → l ≠ "" →
       (∀ el, find "predicate string" (labelPredicate l) = some el →
          resolveStep3 ref entry find =
            (Except.ok el, [("predicate string", labelPredicate l)])) ∧
       (find "predicate string" (labelPredicate l) = none →
          resolveStep3 ref entry find =
            (Except.error (notFoundError ref), [("predicate string", labelPredicate l)]))) ∧
    (∀ ref store (find : ElementFinder) entry,
       startsWithM ref "@e" = true → storeGet store ref = some entry →
       resolveRefM ref store find = resolveStep1 ref entry find) := by
  refine ⟨?_, ?_, ?_, ?_, ?_⟩
  · intro ref entry find ident hid hne
    constructor
    · intro el hel
      simp [resolveStep1, hid, hne, hel]
    · intro hmiss
      simp [resolveStep1, hid, hne, hmiss]
  · intro ref entry find h
    rcases h with h | h <;> simp [resolveStep1, h]
  · intro ref entry find l hl hlne htne
    constructor
    · intro el hel
      simp [resolveStep2, hl, hlne, htne, hel]
    · intro hmiss
      simp [resolveStep2, hl, hlne, htne, hmiss]
  · intro ref entry find l hl hlne
    constructor
    · intro el hel
      simp [resolveStep3, hl, hlne, hel]
    · intro hmiss
      simp [resolveStep3, hl, hlne, hmiss]
  · intro ref store find entry hs hget
    simp [resolveRefM, hs, hget]

/-- Witness for C3 (amended): a by-identifier hit ends the call with that
single query. -/
theorem resolve_fallback_chain_witness :
    resolveStep1 "@e0" { type := "A", identifier := some "x", label := none }
        (fun u _ => if u = "accessibility id" then some "E7" else none) =
      (Except.ok "E7", [("accessibility id", "x")]) :=
  ((resolve_fallback_chain.1 "@e0"
      { type := "A", identifier := some "x", label := none }
      (fun u _ => if u = "accessibility id" then some "E7" else none)
      "x" (by rfl) (by decide)).1 "E7" (by decide))

end AgentIOS
